import Mathlib

/- Verification of the recommendation core of the Advanced Book Recommendation
   System: the data model (models/book.py, models/user.py), the strategy
   scorers and the hybrid combiner (services/ml_recommender.py), and the
   orchestrating engine (services/recommendation_engine.py).  Python floats
   are modelled as rationals; Python lists as Lean lists; the in-place sort
   `list.sort(reverse=True)` as a stable descending insertion sort. -/

/-- Book entity (models/book.py, dataclass `Book`), restricted to the fields
the recommendation core reads.  `year = 0` encodes an unknown year. -/
structure Book where
  title : String
  authors : List String
  year : Int := 0
  edition_count : Nat := 0
  subjects : Option (List String) := none
  description : Option String := none
  work_id : Option String := none
  rating : Option ℚ := none
  page_count : Option Nat := none
  sentiment_score : Option ℚ := none
  popularity_score : Option ℚ := none
  deriving DecidableEq, Repr

/-- Recommendation result (models/book.py, dataclass `BookRecommendation`);
dataclass equality compares all four fields. -/
structure BookRecommendation where
  book : Book
  score : ℚ
  algorithm : String
  reasons : List String
  deriving DecidableEq, Repr

/-- One reading-history entry (models/user.py, dataclass `ReadingHistory`),
restricted to the fields the recommender reads. -/
structure ReadingHistory where
  book_id : String
  title : String
  authors : List String
  rating : Option ℚ := none
  tags : List String := []
  deriving DecidableEq, Repr

/-- User profile (models/user.py, dataclass `UserProfile`), restricted to the
fields the recommender reads. -/
structure UserProfile where
  user_id : String
  reading_history : List ReadingHistory := []
  favorite_genres : List String := []
  favorite_authors : List String := []
  deriving DecidableEq, Repr

/-- Python truthiness of an optional string: `None` and `""` are falsy. -/
def optStrTruthy : Option String → Bool
  | some s => s != ""
  | none => false

/-- Python truthiness of an optional list: `None` and `[]` are falsy. -/
def optListTruthy : Option (List String) → Bool
  | some l => !l.isEmpty
  | none => false

/-- Python truthiness of an optional float: `None` and `0.0` are falsy. -/
def optRatTruthy : Option ℚ → Bool
  | some q => q != 0
  | none => false

/-- Python truthiness of an optional int: `None` and `0` are falsy. -/
def optNatTruthy : Option Nat → Bool
  | some n => n != 0
  | none => false

/-- Python `x or d` for an optional float `x`: yields `d` when `x` is falsy. -/
def ratOr (o : Option ℚ) (d : ℚ) : ℚ :=
  match o with
  | some q => if q = 0 then d else q
  | none => d

/-- `o.getD []`, the list a truthy-guarded access reads. -/
def optList (o : Option (List String)) : List String := o.getD []

/-- Python `str.lower()`, as a per-character map (ASCII-faithful). -/
def lowerStr (s : String) : String := String.mk (s.data.map Char.toLower)

section StableSort

variable {α : Type _}

/-- Insert `x` into `l` before the first element whose key is not larger:
one step of the model of CPython's stable `list.sort(reverse=True)`. -/
def insertDescBy (key : α → ℚ) (x : α) : List α → List α
  | [] => [x]
  | y :: ys => if key y ≤ key x then x :: y :: ys else y :: insertDescBy key x ys

/-- Stable descending sort by a rational key, the model of Python
`list.sort(key=..., reverse=True)` (equal keys keep input order). -/
def sortDescBy (key : α → ℚ) : List α → List α
  | [] => []
  | x :: xs => insertDescBy key x (sortDescBy key xs)

/-- A list is non-increasing in the given key. -/
def NonIncreasingBy (key : α → ℚ) (l : List α) : Prop :=
  List.Pairwise (fun a b => key b ≤ key a) l

instance (key : α → ℚ) (l : List α) : Decidable (NonIncreasingBy key l) :=
  inferInstanceAs (Decidable (List.Pairwise _ l))

end StableSort

/-- Sort a recommendation list by score descending: the model of
`recommendations.sort(reverse=True)` over `BookRecommendation.__lt__`
(models/book.py lines 67-68), which compares scores; CPython timsort with
`reverse=True` is stable, so equal scores keep input order. -/
def sortRecs : List BookRecommendation → List BookRecommendation :=
  sortDescBy (fun r => r.score)

/-- The returned list is non-increasing in score. -/
def ScoresNonIncreasing (l : List BookRecommendation) : Prop :=
  NonIncreasingBy (fun r => r.score) l

instance (l : List BookRecommendation) : Decidable (ScoresNonIncreasing l) :=
  inferInstanceAs (Decidable (NonIncreasingBy _ l))

/-- `Book.calculate_popularity_score` (models/book.py lines 52-56). -/
def calculate_popularity_score (b : Book) : ℚ :=
  let edition_score : ℚ := min ((b.edition_count : ℚ) / 100) 1
  let rating_score : ℚ := (ratOr b.rating 0) / 5
  edition_score * (4 / 10) + rating_score * (6 / 10)

/-- The data-provider enrichment
`book.popularity_score = book.calculate_popularity_score()`
(services/api_providers.py lines 103 and 187). -/
def set_popularity (b : Book) : Book :=
  { b with popularity_score := some (calculate_popularity_score b) }

/-- `SentimentAnalyzer.POSITIVE_WORDS` (services/recommendation_engine.py
lines 23-28). -/
def POSITIVE_WORDS : List String :=
  ["excellent", "amazing", "wonderful", "brilliant", "outstanding", "fantastic",
   "great", "good", "best", "love", "beautiful", "perfect", "incredible",
   "masterpiece", "compelling", "engaging", "captivating", "thrilling",
   "inspiring", "powerful", "moving", "delightful", "entertaining"]

/-- `SentimentAnalyzer.NEGATIVE_WORDS` (services/recommendation_engine.py
lines 30-34); the source set literal lists "disappointing" twice, which does
not change set membership. -/
def NEGATIVE_WORDS : List String :=
  ["bad", "terrible", "awful", "horrible", "poor", "worst", "disappointing",
   "boring", "dull", "weak", "confusing", "tedious", "mediocre", "bland",
   "predictable", "slow", "frustrating"]

/-- A Python regex word character (ASCII fragment of \w). -/
def isWordChar (c : Char) : Bool := c.isAlphanum || c == '_'

/-- Accumulator pass extracting maximal runs of word characters. -/
def tokenizeAux : List Char → List Char → List String
  | [], acc => if acc.isEmpty then [] else [String.mk acc.reverse]
  | c :: cs, acc =>
    if isWordChar c then tokenizeAux cs (c :: acc)
    else if acc.isEmpty then tokenizeAux cs []
    else String.mk acc.reverse :: tokenizeAux cs []

/-- The tokenization `re.findall(r'\b\w+\b', text.lower())` of
`SentimentAnalyzer.analyze`: maximal word-character runs of the lower-cased
text. -/
def tokenize (s : String) : List String := tokenizeAux (lowerStr s).toList []

/-- `SentimentAnalyzer.analyze` (services/recommendation_engine.py lines
36-57). -/
def analyze (text : String) : ℚ :=
  if text = "" then 0
  else
    let ws := tokenize text
    let p := (ws.filter (fun w => POSITIVE_WORDS.contains w)).length
    let n := (ws.filter (fun w => NEGATIVE_WORDS.contains w)).length
    if p + n = 0 then 0 else ((p : ℚ) - (n : ℚ)) / ((p : ℚ) + (n : ℚ))

/-- `SentimentAnalyzer.get_sentiment_label` (services/recommendation_engine.py
lines 59-66). -/
def get_sentiment_label (score : ℚ) : String :=
  if score > 3/10 then "Positive"
  else if score < -(3/10) then "Negative"
  else "Neutral"

/-- `RecommendationEngine._enrich_with_sentiment` restricted to one book
(services/recommendation_engine.py lines 245-249).  The guard
`if book.description and not book.sentiment_score` recomputes whenever the
memoized field is absent or 0.0, since Python treats 0.0 as falsy. -/
def enrich_with_sentiment (b : Book) : Book :=
  if optStrTruthy b.description && !optRatTruthy b.sentiment_score then
    { b with sentiment_score := some (analyze (b.description.getD "")) }
  else b

/-- `CollaborativeFilteringRecommender._calculate_item_similarity`
(services/ml_recommender.py lines 201-215).  The overlap fraction divides by
`max(len(book.subjects[:5]), len(history_entry.tags))`, the lengths of the
two lists, not of their deduplicated sets. -/
def calculate_item_similarity (book : Book) (entry : ReadingHistory) : ℚ :=
  let s1 : ℚ := if book.authors.any (fun a => entry.authors.contains a) then 1/2 else 0
  let subj5 := (optList book.subjects).take 5
  let common := (subj5.dedup.filter (fun s => entry.tags.contains s)).length
  let s2 : ℚ :=
    if optListTruthy book.subjects && !entry.tags.isEmpty then
      (if common ≠ 0 then
        (3/10) * ((common : ℚ) / ((max subj5.length entry.tags.length : Nat) : ℚ))
      else 0)
    else 0
  min (s1 + s2) 1

/-- One loop iteration of `_calculate_cf_score` (services/ml_recommender.py
lines 191-197): accumulate rating*similarity and a count over entries whose
truthy rating is at least 4.0 and whose similarity is positive. -/
def cf_step (book : Book) (acc : ℚ × Nat) (e : ReadingHistory) : ℚ × Nat :=
  match e.rating with
  | some r =>
    if r ≥ 4 then
      let sim := calculate_item_similarity book e
      if sim > 0 then (acc.1 + r * sim, acc.2 + 1) else acc
    else acc
  | none => acc

/-- `CollaborativeFilteringRecommender._calculate_cf_score`
(services/ml_recommender.py lines 185-199). -/
def calculate_cf_score (book : Book) (profile : UserProfile) : ℚ :=
  let acc := profile.reading_history.foldl (cf_step book) (0, 0)
  if acc.2 > 0 then (acc.1 / (acc.2 : ℚ)) / 5 else 0

/-- Does a history entry contribute to the Preference-Matcher accumulation:
rated (truthy) at least 4.0 and positive similarity with the candidate. -/
def qualifies (book : Book) (e : ReadingHistory) : Bool :=
  match e.rating with
  | some r => decide (r ≥ 4) && decide (calculate_item_similarity book e > 0)
  | none => false

/-- `CollaborativeFilteringRecommender._generate_cf_reasons`
(services/ml_recommender.py lines 217-236); numeric percentage formatting is
abridged to `toString`. -/
def generate_cf_reasons (book : Book) (profile : UserProfile) (score : ℚ) :
    List String :=
  let similar_liked := profile.reading_history.filterMap (fun e =>
    match e.rating with
    | some r =>
      if r ≥ 4 && book.authors.any (fun a => e.authors.contains a) then
        some e.title
      else none
    | none => none)
  (match similar_liked with
   | t :: _ => ["You enjoyed: " ++ t]
   | [] => []) ++
  ["Match score: " ++ toString score] ++
  (if optRatTruthy book.rating then
    ["Community rating: " ++ toString (ratOr book.rating 0) ++ "/5.0"]
   else [])

/-- `CollaborativeFilteringRecommender._popularity_based_recommendations`
(services/ml_recommender.py lines 238-252): only candidates with a truthy
`popularity_score` (set and non-zero) receive a recommendation. -/
def popularity_based_recommendations (candidates : List Book) (top_n : Nat) :
    List BookRecommendation :=
  let recs := candidates.filterMap (fun b =>
    if optRatTruthy b.popularity_score then
      some { book := b, score := ratOr b.popularity_score 0,
             algorithm := "Popularity-Based",
             reasons := ["Popular book with " ++ toString b.edition_count ++ " editions"] }
    else none)
  (sortRecs recs).take top_n

/-- `CollaborativeFilteringRecommender.recommend` (services/ml_recommender.py
lines 146-177); the `target_book` parameter is never read by the source body,
and the try/except around the scored path cannot fire in this model because
every step is total. -/
def cf_recommend (candidates : List Book) (profile : Option UserProfile)
    (top_n : Nat) : List BookRecommendation :=
  match profile with
  | none => popularity_based_recommendations candidates top_n
  | some p =>
    if p.reading_history = [] then popularity_based_recommendations candidates top_n
    else
      let recs := candidates.filterMap (fun c =>
        let score := calculate_cf_score c p
        if score > 0 then
          some { book := c, score := score, algorithm := "Collaborative Filtering",
                 reasons := generate_cf_reasons c p score }
        else none)
      (sortRecs recs).take top_n

/-- `TFIDFRecommender._apply_user_boost` (services/ml_recommender.py lines
120-133): multiplicative 1.3 / 1.2 boosts, clamped to 1. -/
def apply_user_boost (score : ℚ) (b : Book) (p : UserProfile) : ℚ :=
  let boost1 : ℚ := if b.authors.any (fun a => p.favorite_authors.contains a)
    then 1 * (13/10) else 1
  let boost2 : ℚ :=
    if optListTruthy b.subjects &&
        (optList b.subjects).any (fun s => p.favorite_genres.contains s) then
      boost1 * (12/10)
    else boost1
  min (score * boost2) 1

/-- `TFIDFRecommender._generate_reasons` (services/ml_recommender.py lines
96-118); Python set-iteration order and numeric formatting are abridged,
membership and the guards are preserved. -/
def generate_tfidf_reasons (target candidate : Book) (score : ℚ) : List String :=
  let common_authors := target.authors.dedup.filter
    (fun a => candidate.authors.contains a)
  let common_subjects := ((optList target.subjects).take 5).dedup.filter
    (fun s => ((optList candidate.subjects).take 5).contains s)
  (if !common_authors.isEmpty then
    ["Same author: " ++ String.intercalate ", " common_authors]
   else []) ++
  (if optListTruthy target.subjects && optListTruthy candidate.subjects &&
      !common_subjects.isEmpty then
    ["Similar topics: " ++ String.intercalate ", " (common_subjects.take 3)]
   else []) ++
  ["Content similarity: " ++ toString score] ++
  (if optRatTruthy candidate.rating then
    ["Rating: " ++ toString (ratOr candidate.rating 0) ++ "/5.0"]
   else [])

/-- `TFIDFRecommender.recommend` (services/ml_recommender.py lines 50-88),
with the sklearn vectorizer and cosine similarity abstracted as the argument
`sim`: `sim target candidates = none` models the vectorizer raising (caught
by the except clause, which returns `[]`), and `some sims` models the cosine
similarity row, paired positionally with the candidates. -/
def tfidf_recommend (sim : Book → List Book → Option (List ℚ))
    (target : Book) (candidates : List Book) (profile : Option UserProfile)
    (top_n : Nat) : List BookRecommendation :=
  match sim target candidates with
  | none => []
  | some sims =>
    let recs := (sims.zip candidates).filterMap (fun sc =>
      if sc.1 > 1/10 then
        let boosted := match profile with
          | some p => apply_user_boost sc.1 sc.2 p
          | none => sc.1
        some { book := sc.2, score := boosted, algorithm := "TF-IDF Content-Based",
               reasons := generate_tfidf_reasons target sc.2 sc.1 }
      else none)
    (sortRecs recs).take top_n

/-- Accumulated per-book-identity data of `MLRecommender.recommend`
(services/ml_recommender.py lines 282-293). -/
structure MergeEntry where
  book : Book
  scores : List ℚ
  reasons : List String
  algorithms : List String
  deriving DecidableEq, Repr

/-- `rec.book.work_id or rec.book.title` (services/ml_recommender.py line
282): the identity used for merging; a falsy work_id (absent or empty string)
falls back to the title. -/
def bookKey (b : Book) : String :=
  match b.work_id with
  | some w => if w = "" then b.title else w
  | none => b.title

/-- Dictionary lookup in the insertion-ordered merge map. -/
def findEntry (k : String) : List (String × MergeEntry) → Option MergeEntry
  | [] => none
  | (k2, e) :: rest => if k2 = k then some e else findEntry k rest

/-- In-place value update at a key of the insertion-ordered merge map. -/
def updateEntry (k : String) (f : MergeEntry → MergeEntry) :
    List (String × MergeEntry) → List (String × MergeEntry)
  | [] => []
  | (k2, e) :: rest =>
    if k2 = k then (k2, f e) :: rest else (k2, e) :: updateEntry k f rest

/-- Union of reason strings; the source keeps them in an unordered Python
set, modelled as an order-preserving deduplicating union with the same
membership. -/
def unionReasons (old new : List String) : List String :=
  old ++ (new.dedup.filter (fun r => !old.contains r))

/-- Fold one strategy recommendation into the merge dictionary
(services/ml_recommender.py lines 281-293); `w` is the strategy weight. -/
def addRec (w : ℚ) (m : List (String × MergeEntry)) (r : BookRecommendation) :
    List (String × MergeEntry) :=
  let k := bookKey r.book
  match findEntry k m with
  | none =>
    m ++ [(k, { book := r.book, scores := [r.score * w],
                reasons := r.reasons.dedup, algorithms := [r.algorithm] })]
  | some _ =>
    updateEntry k (fun e =>
      { book := e.book, scores := e.scores ++ [r.score * w],
        reasons := unionReasons e.reasons r.reasons,
        algorithms := e.algorithms ++ [r.algorithm] }) m

/-- Score combination for one merged entry (services/ml_recommender.py lines
296-312): sum of weighted scores divided by `len(self.strategies)` (2),
multiplied by 1.2 when more than one algorithm contributed, clamped to 1. -/
def combineEntry (e : MergeEntry) : BookRecommendation :=
  let combined := (e.scores.foldl (fun a b => a + b) 0) / 2
  let boosted := if e.algorithms.length > 1 then combined * (12/10) else combined
  { book := e.book, score := min boosted 1, algorithm := "Hybrid ML",
    reasons := e.reasons.take 4 ++
      ["Recommended by: " ++ String.intercalate ", " e.algorithms] }

/-- The merge dictionary after both strategy result lists (TF-IDF weighted
0.6, Collaborative/Popularity weighted 0.4) have been folded in
(services/ml_recommender.py lines 275-293, 263-266). -/
def hybridMerged (tf cf : List BookRecommendation) : List (String × MergeEntry) :=
  cf.foldl (addRec (4/10)) (tf.foldl (addRec (6/10)) [])

/-- The sorted hybrid list before the final `[:top_n]` truncation. -/
def hybridAll (tf cf : List BookRecommendation) : List BookRecommendation :=
  sortRecs ((hybridMerged tf cf).map (fun p => combineEntry p.2))

/-- `MLRecommender.recommend` (services/ml_recommender.py lines 271-322):
each strategy is asked for `2*top_n` results, results are merged by book
identity, combined, sorted, truncated.  The try/except fallback to the first
strategy is dead in this model because every step is total. -/
def hybrid_recommend (sim : Book → List Book → Option (List ℚ))
    (target : Book) (candidates : List Book) (profile : Option UserProfile)
    (top_n : Nat) : List BookRecommendation :=
  let tf := tfidf_recommend sim target candidates profile (top_n * 2)
  let cf := cf_recommend candidates profile (top_n * 2)
  (hybridAll tf cf).take top_n

/-- Context dict restricted to its recognized keys
(services/recommendation_engine.py lines 260-274); a field is `none` when the
key is absent from the dict. -/
structure Context where
  time_of_day : Option String := none
  reading_goal : Option String := none
  deriving DecidableEq, Repr

/-- `RecommendationEngine._apply_context_filters`
(services/recommendation_engine.py lines 251-278).  The night boost
multiplies by 1.1 with no clamp; `quick_read` keeps items whose page count is
falsy or below 400; `deep_dive` keeps items whose page count is truthy and
above 300; the list is then re-sorted by score descending.
This is the per-item night boost (lines 264-266): 1.1x for truthy page
counts below 300, with no clamp. -/
def night_boost (r : BookRecommendation) : BookRecommendation :=
  if optNatTruthy r.book.page_count && decide ((r.book.page_count.getD 0) < 300) then
    { r with score := r.score * (11/10) }
  else r

/-- The time-of-day stage (services/recommendation_engine.py lines 260-266):
at night every item with truthy page count below 300 is boosted 1.1x. -/
def time_filter (recs : List BookRecommendation) (t : Option String) :
    List BookRecommendation :=
  match t with
  | some t0 => if t0 = "night" then recs.map night_boost else recs
  | none => recs

/-- The reading-goal stage (services/recommendation_engine.py lines
269-274). -/
def goal_filter (recs : List BookRecommendation) (g : Option String) :
    List BookRecommendation :=
  match g with
  | some g0 =>
    if g0 = "quick_read" then
      recs.filter (fun r =>
        !optNatTruthy r.book.page_count || decide ((r.book.page_count.getD 0) < 400))
    else if g0 = "deep_dive" then
      recs.filter (fun r =>
        optNatTruthy r.book.page_count && decide ((r.book.page_count.getD 0) > 300))
    else recs
  | none => recs

/-- `RecommendationEngine._apply_context_filters`
(services/recommendation_engine.py lines 251-278): time stage, goal stage,
final re-sort by score descending. -/
def apply_context_filters (recs : List BookRecommendation) (ctx : Context) :
    List BookRecommendation :=
  sortRecs (goal_filter (time_filter recs ctx.time_of_day) ctx.reading_goal)

/-- Mood-to-genre map (services/recommendation_engine.py lines 197-205),
looked up with the lower-cased mood. -/
def mood_genres (mood : String) : List String :=
  if mood = "happy" then ["comedy", "romance", "humor", "feel-good"]
  else if mood = "sad" then ["drama", "literary fiction", "poetry"]
  else if mood = "adventurous" then ["adventure", "action", "thriller", "fantasy"]
  else if mood = "thoughtful" then ["philosophy", "non-fiction", "science", "history"]
  else if mood = "relaxed" then ["mystery", "cozy", "light fiction", "travel"]
  else []

/-- Prefix test on character lists. -/
def charsPrefix : List Char → List Char → Bool
  | [], _ => true
  | _ :: _, [] => false
  | a :: as, b :: bs => a == b && charsPrefix as bs

/-- Helper for substring containment: needle occurs at some position. -/
def substrAux (n : List Char) : List Char → Bool
  | [] => n.isEmpty
  | c :: rest => charsPrefix n (c :: rest) || substrAux n rest

/-- Python `needle in hay` on strings: contiguous substring containment. -/
def isSubstring (needle hay : String) : Bool :=
  substrAux needle.toList hay.toList

/-- The per-candidate score of
`RecommendationEngine.get_mood_based_recommendations`
(services/recommendation_engine.py lines 208-225): fraction of target genres
substring-contained in some lower-cased subject, multiplied by 1.2 (without
clamp) when a truthy sentiment score aligns with the mood; the sentiment
branch compares the raw `mood` string, not its lower-casing.
`mood_base` is the genre-overlap fraction of lines 210-215. -/
def mood_base (mood : String) (b : Book) : ℚ :=
  let target := mood_genres (lowerStr mood)
  if optListTruthy b.subjects then
    let bg := (optList b.subjects).map lowerStr
    let nMatches := (target.filter (fun g => bg.any (fun s => isSubstring g s))).length
    if target.isEmpty then 0 else (nMatches : ℚ) / (target.length : ℚ)
  else 0

/-- The sentiment adjustment on top of `mood_base`
(services/recommendation_engine.py lines 217-222). -/
def mood_score (mood : String) (b : Book) : ℚ :=
  let base := mood_base mood b
  if optRatTruthy b.sentiment_score then
    if mood = "happy" && decide ((b.sentiment_score.getD 0) > 0) then base * (12/10)
    else if mood = "sad" && decide ((b.sentiment_score.getD 0) < 0) then base * (12/10)
    else base
  else base

/-- `RecommendationEngine.get_mood_based_recommendations`
(services/recommendation_engine.py lines 182-243). -/
def get_mood_based_recommendations (candidates : List Book) (mood : String)
    (top_n : Nat) : List BookRecommendation :=
  let scored := candidates.filterMap (fun b =>
    if mood_score mood b > 0 then some (b, mood_score mood b) else none)
  let sorted := sortDescBy (fun p => p.2) scored
  (sorted.take top_n).map (fun p =>
    { book := p.1, score := p.2, algorithm := "Mood-Based",
      reasons :=
        ["Matches " ++ mood ++ " mood",
         "Genres: " ++ (if optListTruthy p.1.subjects then
            String.intercalate ", " ((optList p.1.subjects).take 3)
          else "Various"),
         "Sentiment: " ++ get_sentiment_label (ratOr p.1.sentiment_score 0)] })

/-- `RecommendationEngine.get_trending_recommendations`
(services/recommendation_engine.py lines 137-180), with `datetime.now().year`
passed explicitly and the post-call state of the caller's candidate list
returned as the first component: for the three recognized windows `filtered`
is a fresh list comprehension, so the caller's list is untouched; for any
other window `filtered = candidates` aliases the caller's list, which the
in-place `.sort` then reorders.
`trending_rec` wraps one book (lines 169-178); the emitted score is the
truthy popularity score or the 0.5 default. -/
def trending_rec (b : Book) : BookRecommendation :=
  { book := b, score := ratOr b.popularity_score (1/2), algorithm := "Trending",
    reasons :=
      ["Published in " ++ toString b.year,
       toString b.edition_count ++ " editions",
       if optRatTruthy b.rating then
         "Rating: " ++ toString (ratOr b.rating 0) ++ "/5.0"
       else "Popular choice"] }

/-- Sort the filtered candidates by truthy popularity descending, truncate,
wrap (services/recommendation_engine.py lines 163-178). -/
def trending_wrap (filtered : List Book) (top_n : Nat) : List BookRecommendation :=
  ((sortDescBy (fun b => ratOr b.popularity_score 0) filtered).take top_n).map
    trending_rec

def get_trending_full (current_year : Int) (candidates : List Book)
    (time_window : String) (top_n : Nat) : List Book × List BookRecommendation :=
  if time_window = "recent" then
    (candidates, trending_wrap (candidates.filter
      (fun b => b.year != 0 && decide (b.year ≥ current_year - 2))) top_n)
  else if time_window = "this_year" then
    (candidates, trending_wrap (candidates.filter
      (fun b => b.year == current_year)) top_n)
  else if time_window = "classic" then
    (candidates, trending_wrap (candidates.filter
      (fun b => b.year != 0 && decide (b.year < 2000))) top_n)
  else
    (sortDescBy (fun b => ratOr b.popularity_score 0) candidates,
     trending_wrap candidates top_n)

/-- The recommendation list returned by
`RecommendationEngine.get_trending_recommendations`. -/
def get_trending_recommendations (current_year : Int) (candidates : List Book)
    (time_window : String) (top_n : Nat) : List BookRecommendation :=
  (get_trending_full current_year candidates time_window top_n).2

/-- First greedy pass of `RecommendationEngine._ensure_diversity`
(services/recommendation_engine.py lines 289-310): stops once `top_n` items
are admitted; an item is admitted when all its authors are unseen, or all of
its first-3 subjects are unseen, or fewer than `top_n // 2` items have been
admitted so far; seen-sets accumulate and are never reset. -/
def diversity_first_pass (top_n : Nat) :
    List BookRecommendation → List BookRecommendation → List String →
      List String → List BookRecommendation
  | [], acc, _, _ => acc
  | r :: rest, acc, seen_a, seen_s =>
    if acc.length ≥ top_n then acc
    else
      let authors_new := !(r.book.authors.any (fun a => seen_a.contains a))
      let subjects_new :=
        if optListTruthy r.book.subjects then
          !(((optList r.book.subjects).take 3).any (fun s => seen_s.contains s))
        else true
      if authors_new || subjects_new || decide (acc.length < top_n / 2) then
        diversity_first_pass top_n rest (acc ++ [r]) (seen_a ++ r.book.authors)
          (seen_s ++ (if optListTruthy r.book.subjects then
            (optList r.book.subjects).take 3 else []))
      else diversity_first_pass top_n rest acc seen_a seen_s

/-- Fill pass of `RecommendationEngine._ensure_diversity`
(services/recommendation_engine.py lines 313-318): appends items not yet
present (dataclass equality) in input order until `top_n` is reached. -/
def diversity_fill (top_n : Nat) :
    List BookRecommendation → List BookRecommendation → List BookRecommendation
  | [], acc => acc
  | r :: rest, acc =>
    if acc.contains r then diversity_fill top_n rest acc
    else
      let acc2 := acc ++ [r]
      if acc2.length ≥ top_n then acc2 else diversity_fill top_n rest acc2

/-- `RecommendationEngine._ensure_diversity`
(services/recommendation_engine.py lines 280-320). -/
def ensure_diversity (recs : List BookRecommendation) (top_n : Nat) :
    List BookRecommendation :=
  if recs.length ≤ top_n then recs
  else
    let d := diversity_first_pass top_n recs [] [] []
    if d.length < top_n then diversity_fill top_n recs d else d

/-- `RecommendationEngine.get_recommendations`
(services/recommendation_engine.py lines 96-135) for the default hybrid
strategy: sentiment enrichment of the candidates, hybrid recommendation asked
for `2*top_n`, context filtering when a context is supplied (an absent or
empty dict is falsy, modelled as `none`), diversity, final `[:top_n]`. -/
def get_recommendations (sim : Book → List Book → Option (List ℚ))
    (target : Book) (candidates : List Book) (profile : Option UserProfile)
    (ctx : Option Context) (top_n : Nat) : List BookRecommendation :=
  let cands := candidates.map enrich_with_sentiment
  let recs := hybrid_recommend sim target cands profile (top_n * 2)
  let recs2 := match ctx with
    | some c => apply_context_filters recs c
    | none => recs
  (ensure_diversity recs2 top_n).take top_n

/-- The per-entry similarity as claim C3 words it: identical to
`calculate_item_similarity` except that the overlap fraction divides by the
max of the two SET sizes (deduplicated element counts) instead of the two
list lengths. -/
def claim_item_similarity (book : Book) (entry : ReadingHistory) : ℚ :=
  let s1 : ℚ := if book.authors.any (fun a => entry.authors.contains a) then 1/2 else 0
  let subj5 := (optList book.subjects).take 5
  let common := (subj5.dedup.filter (fun s => entry.tags.contains s)).length
  let s2 : ℚ :=
    if optListTruthy book.subjects && !entry.tags.isEmpty then
      (if common ≠ 0 then
        (3/10) * ((common : ℚ) /
          ((max subj5.dedup.length entry.tags.dedup.length : Nat) : ℚ))
      else 0)
    else 0
  min (s1 + s2) 1

/-- The Preference-Matcher score as claim C3 words it, built on
`claim_item_similarity`. -/
def claim_cf_score (book : Book) (profile : UserProfile) : ℚ :=
  let acc := profile.reading_history.foldl
    (fun (acc : ℚ × Nat) e =>
      match e.rating with
      | some r =>
        if r ≥ 4 then
          let sim := claim_item_similarity book e
          if sim > 0 then (acc.1 + r * sim, acc.2 + 1) else acc
        else acc
      | none => acc)
    (0, 0)
  if acc.2 > 0 then (acc.1 / (acc.2 : ℚ)) / 5 else 0

/-- A candidate matching all four happy genres whose positive sentiment
score triggers the unclamped mood boost. -/
def moodBoostBook : Book :=
  { title := "h", authors := ["a"],
    subjects := some ["comedy", "romance", "humor", "feel-good"],
    sentiment_score := some (1/2) }

/-- Candidate with a duplicated subject: the first-5 subject list has length
2 but set size 1. -/
def dupSubjectsBook : Book :=
  { title := "b", authors := ["X"], subjects := some ["a", "a"] }

/-- A 5.0-rated history entry with one tag overlapping the candidate
subjects and no author overlap. -/
def likedEntry : ReadingHistory :=
  { book_id := "1", title := "t", authors := ["Y"], rating := some 5, tags := ["a"] }

/-- Profile whose only history entry is `likedEntry`. -/
def dupProfile : UserProfile :=
  { user_id := "u", reading_history := [likedEntry] }

/-- A book whose sentiment score was memoized as 0.0 (neutral) and whose
description was afterwards mutated to positive text. -/
def staleBook : Book :=
  { title := "m", authors := ["a"], description := some "excellent",
    sentiment_score := some 0 }

/-- Candidate whose derived popularity score is 0.0 (edition_count 0 and no
rating), hence Python-falsy. -/
def zeroPopBook : Book :=
  { title := "z", authors := ["a"], edition_count := 0, popularity_score := some 0 }

/-- Scenario candidates with popularity scores 0.9, 0.5, 0.2. -/
def pop09Book : Book :=
  { title := "p9", authors := ["a"], edition_count := 9, popularity_score := some (9/10) }

/-- Second scenario candidate. -/
def pop05Book : Book :=
  { title := "p5", authors := ["b"], edition_count := 5, popularity_score := some (5/10) }

/-- Third scenario candidate. -/
def pop02Book : Book :=
  { title := "p2", authors := ["c"], edition_count := 2, popularity_score := some (2/10) }

/-- Scenario candidate published in 1950. -/
def oldBook : Book :=
  { title := "old", authors := ["a"], year := 1950, popularity_score := some (1/2) }

/-- Scenario candidate published in 2023. -/
def newBook : Book :=
  { title := "new", authors := ["a"], year := 2023, popularity_score := some (9/10) }

/-- Candidate with unknown year (0), published before 2000 by the claim C6
reading of the classic filter. -/
def unknownYearBook : Book :=
  { title := "unk", authors := ["a"], year := 0, popularity_score := some 3 }

/-- Pre-2000 candidate with a set non-zero popularity score. -/
def popTruthyBook : Book :=
  { title := "pa", authors := ["a"], year := 1990, popularity_score := some (3/10) }

/-- Pre-2000 candidate with an unset popularity score: its sort key is 0 but
its emitted score is the 0.5 default. -/
def popFalsyBook : Book :=
  { title := "pb", authors := ["b"], year := 1991, popularity_score := none }

/-- Build a one-author one-subject recommendation for the diversity
counterexample. -/
def mkDivRec (t : String) (s : ℚ) (a : String) (subj : String) : BookRecommendation :=
  { book := { title := t, authors := [a], subjects := some [subj] }, score := s,
    algorithm := "X", reasons := [] }

/-- Top-scored diversity input. -/
def recA : BookRecommendation := mkDivRec "A" 9 "u" "s1"

/-- Second input, sharing author and subject with `recA`: skipped by the
first pass, appended by the fill pass. -/
def recB : BookRecommendation := mkDivRec "B" 8 "u" "s1"

/-- Third input with a fresh author and subject: admitted. -/
def recC : BookRecommendation := mkDivRec "C" 7 "v" "s2"

/-- Fourth input, again sharing with `recA`: skipped. -/
def recD : BookRecommendation := mkDivRec "D" 6 "u" "s1"

/-- A concrete TF-IDF strategy result for the hybrid witness. -/
def tfWitnessRec : BookRecommendation :=
  { book := { title := "T", authors := ["a"], work_id := some "w1" }, score := 1/2,
    algorithm := "TF-IDF Content-Based", reasons := ["r1"] }

/-- A concrete Collaborative strategy result for the same book identity. -/
def cfWitnessRec : BookRecommendation :=
  { book := { title := "T", authors := ["a"], work_id := some "w1" }, score := 3/4,
    algorithm := "Collaborative Filtering", reasons := ["r2"] }

/-- A concrete recommendation with a short book, for context-filter
witnesses. -/
def shortPageRec : BookRecommendation :=
  { book := { title := "S", authors := ["a"], page_count := some 200 }, score := 1,
    algorithm := "X", reasons := [] }
/-- Out-of-order candidate with integer popularity 1, for the in-place-sort
demonstration. -/
def popIntLow : Book :=
  { title := "il", authors := ["a"], popularity_score := some 1 }

/-- Candidate with integer popularity 3. -/
def popIntHigh : Book :=
  { title := "ih", authors := ["b"], popularity_score := some 3 }

section StableSortLemmas

variable {α : Type _}

theorem insertDescBy_perm (key : α → ℚ) (x : α) (l : List α) :
    List.Perm (insertDescBy key x l) (x :: l) := by
  induction l with
  | nil => exact List.Perm.refl _
  | cons y ys ih =>
    by_cases h : key y ≤ key x
    · simp [insertDescBy, h]
    · simp only [insertDescBy, if_neg h]
      exact (ih.cons y).trans (List.Perm.swap x y ys)

theorem sortDescBy_perm (key : α → ℚ) (l : List α) :
    List.Perm (sortDescBy key l) l := by
  induction l with
  | nil => exact List.Perm.refl _
  | cons x xs ih =>
    exact (insertDescBy_perm key x (sortDescBy key xs)).trans (ih.cons x)

theorem mem_sortDescBy {key : α → ℚ} {l : List α} {a : α} :
    a ∈ sortDescBy key l ↔ a ∈ l :=
  (sortDescBy_perm key l).mem_iff

theorem insertDescBy_nonIncreasing (key : α → ℚ) (x : α) (l : List α)
    (h : NonIncreasingBy key l) : NonIncreasingBy key (insertDescBy key x l) := by
  induction l with
  | nil => simp [insertDescBy, NonIncreasingBy]
  | cons y ys ih =>
    rcases List.pairwise_cons.mp h with ⟨hy, hys⟩
    by_cases hxy : key y ≤ key x
    · simp only [insertDescBy, if_pos hxy]
      refine List.pairwise_cons.mpr ⟨?_, h⟩
      intro z hz
      rcases List.mem_cons.mp hz with rfl | hz2
      · exact hxy
      · exact le_trans (hy z hz2) hxy
    · simp only [insertDescBy, if_neg hxy]
      refine List.pairwise_cons.mpr ⟨?_, ih hys⟩
      intro z hz
      rcases List.mem_cons.mp ((insertDescBy_perm key x ys).mem_iff.mp hz) with rfl | hz3
      · exact le_of_lt (not_le.mp hxy)
      · exact hy z hz3

theorem sortDescBy_nonIncreasing (key : α → ℚ) (l : List α) :
    NonIncreasingBy key (sortDescBy key l) := by
  induction l with
  | nil => simp [sortDescBy, NonIncreasingBy]
  | cons x xs ih => exact insertDescBy_nonIncreasing key x _ ih

theorem insertDescBy_filter_eq (key : α → ℚ) (x : α) (l : List α) (q : ℚ)
    (hx : key x = q) :
    (insertDescBy key x l).filter (fun a => key a == q) =
      x :: l.filter (fun a => key a == q) := by
  induction l with
  | nil => simp [insertDescBy, List.filter_cons, beq_iff_eq, hx]
  | cons y ys ih =>
    by_cases hxy : key y ≤ key x
    · rw [insertDescBy, if_pos hxy]
      simp [List.filter_cons, beq_iff_eq, hx]
    · have hyq : ¬ key y = q := fun hq => hxy (le_of_eq (hq.trans hx.symm))
      rw [insertDescBy, if_neg hxy]
      simp [List.filter_cons, beq_iff_eq, hyq, ih]

theorem insertDescBy_filter_ne (key : α → ℚ) (x : α) (l : List α) (q : ℚ)
    (hx : ¬ key x = q) :
    (insertDescBy key x l).filter (fun a => key a == q) =
      l.filter (fun a => key a == q) := by
  induction l with
  | nil => simp [insertDescBy, List.filter_cons, beq_iff_eq, hx]
  | cons y ys ih =>
    by_cases hxy : key y ≤ key x
    · rw [insertDescBy, if_pos hxy]
      simp [List.filter_cons, beq_iff_eq, hx]
    · rw [insertDescBy, if_neg hxy]
      by_cases hyq : key y = q
      · simp [List.filter_cons, beq_iff_eq, hyq, ih]
      · simp [List.filter_cons, beq_iff_eq, hyq, ih]

/-- Stability of the descending sort: for every key value, the elements
carrying that key appear in the output in their input order. -/
theorem sortDescBy_filter (key : α → ℚ) (l : List α) (q : ℚ) :
    (sortDescBy key l).filter (fun a => key a == q) =
      l.filter (fun a => key a == q) := by
  induction l with
  | nil => rfl
  | cons x xs ih =>
    by_cases hx : key x = q
    · rw [sortDescBy, insertDescBy_filter_eq key x _ q hx, ih]
      simp [List.filter_cons, beq_iff_eq, hx]
    · rw [sortDescBy, insertDescBy_filter_ne key x _ q hx, ih]
      simp [List.filter_cons, beq_iff_eq, hx]

end StableSortLemmas

theorem mem_of_mem_take_sortRecs {recs : List BookRecommendation} {n : Nat}
    {r : BookRecommendation} (h : r ∈ (sortRecs recs).take n) : r ∈ recs :=
  mem_sortDescBy.mp ((List.take_sublist n _).subset h)

theorem scoresNonIncreasing_take_sortRecs (recs : List BookRecommendation)
    (n : Nat) : ScoresNonIncreasing ((sortRecs recs).take n) := by
  have h := sortDescBy_nonIncreasing (fun r : BookRecommendation => r.score) recs
  exact List.Pairwise.sublist (List.take_sublist n _) h

theorem hybridAll_score_le_one (tf cf : List BookRecommendation) :
    ∀ r ∈ hybridAll tf cf, r.score ≤ 1 := by
  intro r hr
  rcases List.mem_map.mp (mem_sortDescBy.mp hr) with ⟨p, _, rfl⟩
  exact min_le_right _ _

theorem findEntry_append_ne (k k2 : String) (e : MergeEntry)
    (m : List (String × MergeEntry)) (h : k2 ≠ k) :
    findEntry k (m ++ [(k2, e)]) = findEntry k m := by
  induction m with
  | nil => simp [findEntry, h]
  | cons p rest ih =>
    cases p with
    | mk pk pe => by_cases hp : pk = k <;> simp [findEntry, hp, ih]

theorem findEntry_append_eq (k : String) (e : MergeEntry)
    (m : List (String × MergeEntry)) (h : findEntry k m = none) :
    findEntry k (m ++ [(k, e)]) = some e := by
  induction m with
  | nil => simp [findEntry]
  | cons p rest ih =>
    cases p with
    | mk pk pe =>
      by_cases hp : pk = k
      · rw [findEntry] at h
        simp [hp] at h
      · rw [findEntry] at h
        simp only [hp, if_false] at h
        simp [findEntry, hp, ih h]

theorem findEntry_updateEntry_ne (k k2 : String) (f : MergeEntry → MergeEntry)
    (m : List (String × MergeEntry)) (h : k2 ≠ k) :
    findEntry k (updateEntry k2 f m) = findEntry k m := by
  induction m with
  | nil => rfl
  | cons p rest ih =>
    cases p with
    | mk pk pe =>
      by_cases hp : pk = k2
      · simp [updateEntry, findEntry, hp, h, Ne.symm h]
      · by_cases hpk : pk = k <;>
          simp [updateEntry, findEntry, hp, hpk, Ne.symm h, ih]

theorem findEntry_updateEntry_eq (k : String) (f : MergeEntry → MergeEntry)
    (m : List (String × MergeEntry)) (e : MergeEntry)
    (h : findEntry k m = some e) :
    findEntry k (updateEntry k f m) = some (f e) := by
  induction m with
  | nil => simp [findEntry] at h
  | cons p rest ih =>
    cases p with
    | mk pk pe =>
      by_cases hp : pk = k
      · rw [findEntry] at h
        simp only [hp, if_true, Option.some.injEq] at h
        simp [updateEntry, findEntry, hp, h]
      · rw [findEntry] at h
        simp only [hp, if_false] at h
        simp [updateEntry, findEntry, hp, ih h]

theorem findEntry_mem {k : String} {m : List (String × MergeEntry)}
    {e : MergeEntry} (h : findEntry k m = some e) : (k, e) ∈ m := by
  induction m with
  | nil => simp [findEntry] at h
  | cons p rest ih =>
    cases p with
    | mk pk pe =>
      by_cases hp : pk = k
      · rw [findEntry] at h
        simp only [hp, if_true, Option.some.injEq] at h
        subst hp
        subst h
        exact List.mem_cons_self _ _
      · rw [findEntry] at h
        simp only [hp, if_false] at h
        exact List.mem_cons_of_mem _ (ih h)

theorem findEntry_addRec_ne (w : ℚ) (m : List (String × MergeEntry))
    (r : BookRecommendation) (k : String) (h : bookKey r.book ≠ k) :
    findEntry k (addRec w m r) = findEntry k m := by
  simp only [addRec]
  cases hf : findEntry (bookKey r.book) m with
  | none =>
    simp only [hf]
    exact findEntry_append_ne k _ _ m h
  | some e =>
    simp only [hf]
    exact findEntry_updateEntry_ne k _ _ m h

theorem findEntry_fold_no_key (w : ℚ) (recs : List BookRecommendation)
    (m : List (String × MergeEntry)) (k : String)
    (h : ∀ r ∈ recs, bookKey r.book ≠ k) :
    findEntry k (recs.foldl (addRec w) m) = findEntry k m := by
  induction recs generalizing m with
  | nil => rfl
  | cons r rest ih =>
    rw [List.foldl_cons, ih _ (fun x hx => h x (List.mem_cons_of_mem r hx))]
    exact findEntry_addRec_ne w m r k (h r (List.mem_cons_self _ _))

theorem findEntry_fold_new (w : ℚ) (recs : List BookRecommendation)
    (m : List (String × MergeEntry)) (k : String) (r1 : BookRecommendation)
    (hf : recs.filter (fun r => bookKey r.book == k) = [r1])
    (hm : findEntry k m = none) :
    findEntry k (recs.foldl (addRec w) m) =
      some { book := r1.book, scores := [r1.score * w],
             reasons := r1.reasons.dedup, algorithms := [r1.algorithm] } := by
  induction recs generalizing m with
  | nil => simp at hf
  | cons r rest ih =>
    rw [List.foldl_cons]
    by_cases hk : bookKey r.book = k
    · rw [List.filter_cons] at hf
      simp only [hk, beq_self_eq_true, if_true, List.cons.injEq] at hf
      rcases hf with ⟨rfl, hrest⟩
      have hrest2 : ∀ x ∈ rest, bookKey x.book ≠ k := by
        intro x hx hxk
        have := List.filter_eq_nil_iff.mp hrest x hx
        simp [hxk] at this
      rw [findEntry_fold_no_key w rest _ k hrest2]
      simp only [addRec, hk, hm]
      exact findEntry_append_eq k _ m hm
    · rw [List.filter_cons] at hf
      simp only [beq_iff_eq, hk, if_false] at hf
      have hm2 : findEntry k (addRec w m r) = none := by
        rw [findEntry_addRec_ne w m r k hk]
        exact hm
      exact ih _ hf hm2

theorem findEntry_fold_upd (w : ℚ) (recs : List BookRecommendation)
    (m : List (String × MergeEntry)) (k : String) (r2 : BookRecommendation)
    (e : MergeEntry)
    (hf : recs.filter (fun r => bookKey r.book == k) = [r2])
    (hm : findEntry k m = some e) :
    findEntry k (recs.foldl (addRec w) m) =
      some { book := e.book, scores := e.scores ++ [r2.score * w],
             reasons := unionReasons e.reasons r2.reasons,
             algorithms := e.algorithms ++ [r2.algorithm] } := by
  induction recs generalizing m with
  | nil => simp at hf
  | cons r rest ih =>
    rw [List.foldl_cons]
    by_cases hk : bookKey r.book = k
    · rw [List.filter_cons] at hf
      simp only [hk, beq_self_eq_true, if_true, List.cons.injEq] at hf
      rcases hf with ⟨rfl, hrest⟩
      have hrest2 : ∀ x ∈ rest, bookKey x.book ≠ k := by
        intro x hx hxk
        have := List.filter_eq_nil_iff.mp hrest x hx
        simp [hxk] at this
      rw [findEntry_fold_no_key w rest _ k hrest2]
      simp only [addRec, hk, hm]
      exact findEntry_updateEntry_eq k _ m e hm
    · rw [List.filter_cons] at hf
      simp only [beq_iff_eq, hk, if_false] at hf
      have hm2 : findEntry k (addRec w m r) = some e := by
        rw [findEntry_addRec_ne w m r k hk]
        exact hm
      exact ih _ hf hm2

theorem cf_step_eq (book : Book) (acc : ℚ × Nat) (e : ReadingHistory) :
    cf_step book acc e =
      if qualifies book e then
        (acc.1 + (e.rating.getD 0) * calculate_item_similarity book e, acc.2 + 1)
      else acc := by
  cases he : e.rating with
  | none => simp [cf_step, qualifies, he]
  | some r =>
    by_cases h1 : r ≥ 4
    · by_cases h2 : calculate_item_similarity book e > 0
      · simp [cf_step, qualifies, he, h1, h2]
      · simp [cf_step, qualifies, he, h1, h2]
    · simp [cf_step, qualifies, he, h1]

theorem cf_fold (book : Book) (l : List ReadingHistory) (a : ℚ) (c : Nat) :
    l.foldl (cf_step book) (a, c) =
      (a + ((l.filter (qualifies book)).map
          (fun e => (e.rating.getD 0) * calculate_item_similarity book e)).sum,
       c + (l.filter (qualifies book)).length) := by
  induction l generalizing a c with
  | nil => simp
  | cons e es ih =>
    rw [List.foldl_cons, cf_step_eq]
    cases hq : qualifies book e with
    | true =>
      simp only [if_true, hq, List.filter_cons, List.map_cons, List.sum_cons,
        List.length_cons, ih, Prod.mk.injEq]
      exact ⟨by ring, by omega⟩
    | false =>
      simp only [if_false, hq, List.filter_cons, ih]
      simp

theorem calculate_item_similarity_le_one (book : Book) (e : ReadingHistory) :
    calculate_item_similarity book e ≤ 1 :=
  min_le_right _ _

theorem mood_base_le_one (mood : String) (b : Book) : mood_base mood b ≤ 1 := by
  unfold mood_base
  by_cases hs : optListTruthy b.subjects
  · simp only [hs, if_true]
    cases hee : (mood_genres (lowerStr mood)).isEmpty with
    | true => simp [hee]
    | false =>
      have hne : mood_genres (lowerStr mood) ≠ [] := by
        intro h
        rw [h] at hee
        simp at hee
      rw [if_neg (by simp)]
      rw [div_le_one]
      · exact_mod_cast List.length_filter_le _ _
      · exact_mod_cast List.length_pos.mpr hne
  · simp [hs]

theorem mood_base_nonneg (mood : String) (b : Book) : 0 ≤ mood_base mood b := by
  unfold mood_base
  by_cases hs : optListTruthy b.subjects
  · simp only [hs, if_true]
    cases hee : (mood_genres (lowerStr mood)).isEmpty with
    | true => simp [hee]
    | false =>
      rw [if_neg (by simp)]
      positivity
  · simp [hs]

theorem mood_score_le (mood : String) (b : Book) : mood_score mood b ≤ 12/10 := by
  have hb := mood_base_le_one mood b
  have h12 : mood_base mood b * (12/10) ≤ 12/10 := by nlinarith
  have h1 : mood_base mood b ≤ 12/10 := le_trans hb (by norm_num)
  unfold mood_score
  by_cases c1 : optRatTruthy b.sentiment_score
  · simp only [c1, if_true]
    by_cases c2 : (mood = "happy" && decide ((b.sentiment_score.getD 0) > 0)) = true
    · simp [c2, h12]
    · simp only [c2, if_false]
      by_cases c3 : (mood = "sad" && decide ((b.sentiment_score.getD 0) < 0)) = true
      · simp [c3, h12]
      · simp [c3, h1]
  · simp [c1, h1]

theorem mem_time_filter {recs : List BookRecommendation} {t : Option String}
    {x : BookRecommendation} (hx : x ∈ time_filter recs t) :
    ∃ r0 ∈ recs, x = r0 ∨ x = night_boost r0 := by
  cases t with
  | none =>
    simp only [time_filter] at hx
    exact ⟨x, hx, Or.inl rfl⟩
  | some t0 =>
    simp only [time_filter] at hx
    by_cases hn : t0 = "night"
    · rw [if_pos hn] at hx
      rcases List.mem_map.mp hx with ⟨r0, hr0, rfl⟩
      exact ⟨r0, hr0, Or.inr rfl⟩
    · rw [if_neg hn] at hx
      exact ⟨x, hx, Or.inl rfl⟩

theorem mem_goal_filter {recs : List BookRecommendation} {g : Option String}
    {x : BookRecommendation} (hx : x ∈ goal_filter recs g) : x ∈ recs := by
  cases g with
  | none => exact hx
  | some g0 =>
    simp only [goal_filter] at hx
    by_cases h1 : g0 = "quick_read"
    · rw [if_pos h1] at hx
      exact (List.mem_filter.mp hx).1
    · rw [if_neg h1] at hx
      by_cases h2 : g0 = "deep_dive"
      · rw [if_pos h2] at hx
        exact (List.mem_filter.mp hx).1
      · rw [if_neg h2] at hx
        exact hx

theorem night_boost_score (r : BookRecommendation) :
    (night_boost r).score = r.score ∨ (night_boost r).score = r.score * (11/10) := by
  unfold night_boost
  by_cases h : (optNatTruthy r.book.page_count &&
      decide ((r.book.page_count.getD 0) < 300)) = true
  · rw [if_pos h]
    exact Or.inr rfl
  · rw [if_neg h]
    exact Or.inl rfl

theorem mem_apply_context_filters {recs : List BookRecommendation}
    {ctx : Context} {r : BookRecommendation}
    (hr : r ∈ apply_context_filters recs ctx) :
    ∃ r0 ∈ recs, r.score = r0.score ∨ r.score = r0.score * (11/10) := by
  unfold apply_context_filters at hr
  have h2 : r ∈ goal_filter (time_filter recs ctx.time_of_day) ctx.reading_goal :=
    mem_sortDescBy.mp hr
  rcases mem_time_filter (mem_goal_filter h2) with ⟨r0, hr0, hcase⟩
  rcases hcase with h | h
  · exact ⟨r0, hr0, Or.inl (by rw [h])⟩
  · rcases night_boost_score r0 with hb | hb
    · exact ⟨r0, hr0, Or.inl (by rw [h]; exact hb)⟩
    · exact ⟨r0, hr0, Or.inr (by rw [h]; exact hb)⟩

theorem diversity_first_pass_spec (top_n : Nat) (rest : List BookRecommendation) :
    ∀ (acc : List BookRecommendation) (sa ss : List String),
      ∃ t, diversity_first_pass top_n rest acc sa ss = acc ++ t ∧ t.Sublist rest := by
  induction rest with
  | nil =>
    intro acc sa ss
    exact ⟨[], by simp [diversity_first_pass], List.Sublist.refl _⟩
  | cons r rs ih =>
    intro acc sa ss
    rw [diversity_first_pass]
    by_cases hfull : acc.length ≥ top_n
    · rw [if_pos hfull]
      exact ⟨[], by simp, List.nil_sublist _⟩
    · rw [if_neg hfull]
      by_cases hadmit : ((!(r.book.authors.any (fun a => sa.contains a))) ||
          (if optListTruthy r.book.subjects then
            !(((optList r.book.subjects).take 3).any (fun s => ss.contains s))
          else true) || decide (acc.length < top_n / 2)) = true
      · rw [if_pos hadmit]
        rcases ih (acc ++ [r]) (sa ++ r.book.authors)
            (ss ++ (if optListTruthy r.book.subjects then
              (optList r.book.subjects).take 3 else [])) with ⟨t, ht, hsub⟩
        exact ⟨r :: t, by rw [ht]; simp, List.Sublist.cons₂ r hsub⟩
      · rw [if_neg hadmit]
        rcases ih acc sa ss with ⟨t, ht, hsub⟩
        exact ⟨t, ht, List.Sublist.cons r hsub⟩

theorem diversity_first_pass_sublist (top_n : Nat)
    (recs : List BookRecommendation) :
    (diversity_first_pass top_n recs [] [] []).Sublist recs := by
  rcases diversity_first_pass_spec top_n recs [] [] [] with ⟨t, ht, hsub⟩
  rw [ht]
  simpa using hsub

theorem diversity_fill_mem (top_n : Nat) (rest : List BookRecommendation) :
    ∀ (acc : List BookRecommendation) (r : BookRecommendation),
      r ∈ diversity_fill top_n rest acc → r ∈ acc ∨ r ∈ rest := by
  induction rest with
  | nil =>
    intro acc r hr
    exact Or.inl hr
  | cons x xs ih =>
    intro acc r hr
    rw [diversity_fill] at hr
    by_cases hc : acc.contains x
    · rw [if_pos hc] at hr
      rcases ih acc r hr with h | h
      · exact Or.inl h
      · exact Or.inr (List.mem_cons_of_mem x h)
    · rw [if_neg hc] at hr
      by_cases hlen : (acc ++ [x]).length ≥ top_n
      · rw [if_pos hlen] at hr
        rcases List.mem_append.mp hr with h | h
        · exact Or.inl h
        · exact Or.inr (List.mem_cons.mpr (Or.inl (List.mem_singleton.mp h)))
      · rw [if_neg hlen] at hr
        rcases ih (acc ++ [x]) r hr with h | h
        · rcases List.mem_append.mp h with h2 | h2
          · exact Or.inl h2
          · exact Or.inr (List.mem_cons.mpr (Or.inl (List.mem_singleton.mp h2)))
        · exact Or.inr (List.mem_cons_of_mem x h)

theorem mem_ensure_diversity {recs : List BookRecommendation} {n : Nat}
    {r : BookRecommendation} (hr : r ∈ ensure_diversity recs n) : r ∈ recs := by
  unfold ensure_diversity at hr
  by_cases h : recs.length ≤ n
  · rw [if_pos h] at hr
    exact hr
  · rw [if_neg h] at hr
    by_cases h2 : (diversity_first_pass n recs [] [] []).length < n
    · rw [if_pos h2] at hr
      rcases diversity_fill_mem n recs _ r hr with h3 | h3
      · exact (diversity_first_pass_sublist n recs).subset h3
      · exact h3
    · rw [if_neg h2] at hr
      exact (diversity_first_pass_sublist n recs).subset hr

theorem tfidf_recommend_nil (sim : Book → List Book → Option (List ℚ))
    (target : Book) (profile : Option UserProfile) (n : Nat) :
    tfidf_recommend sim target [] profile n = [] := by
  unfold tfidf_recommend
  cases sim target [] with
  | none => rfl
  | some sims => simp [List.zip_nil_right, sortRecs, sortDescBy]

theorem popularity_based_nil (n : Nat) :
    popularity_based_recommendations [] n = [] := by
  simp [popularity_based_recommendations, sortRecs, sortDescBy]

theorem cf_recommend_nil (profile : Option UserProfile) (n : Nat) :
    cf_recommend [] profile n = [] := by
  unfold cf_recommend
  cases profile with
  | none => exact popularity_based_nil n
  | some p =>
    by_cases hp : p.reading_history = [] <;>
      simp [hp, popularity_based_nil, popularity_based_recommendations,
        sortRecs, sortDescBy]

theorem hybrid_recommend_nil (sim : Book → List Book → Option (List ℚ))
    (target : Book) (profile : Option UserProfile) (n : Nat) :
    hybrid_recommend sim target [] profile n = [] := by
  unfold hybrid_recommend
  rw [tfidf_recommend_nil, cf_recommend_nil]
  simp [hybridAll, hybridMerged, sortRecs, sortDescBy]

theorem apply_context_filters_nil (ctx : Context) :
    apply_context_filters [] ctx = [] := by
  unfold apply_context_filters time_filter goal_filter
  cases ctx.time_of_day with
  | none =>
    cases ctx.reading_goal with
    | none => rfl
    | some g => simp [sortRecs, sortDescBy, ite_self]
  | some t =>
    cases ctx.reading_goal with
    | none => simp [sortRecs, sortDescBy, ite_self]
    | some g => simp [sortRecs, sortDescBy, ite_self]

theorem mem_trending_wrap {l : List Book} {n : Nat} {r : BookRecommendation}
    (hr : r ∈ trending_wrap l n) : ∃ b ∈ l, r = trending_rec b := by
  unfold trending_wrap at hr
  rcases List.mem_map.mp hr with ⟨b, hb, rfl⟩
  exact ⟨b, mem_sortDescBy.mp ((List.take_sublist n _).subset hb), rfl⟩

theorem trending_wrap_complete {l : List Book} {n : Nat} (hlen : l.length ≤ n)
    {b : Book} (hb : b ∈ l) : trending_rec b ∈ trending_wrap l n := by
  unfold trending_wrap
  have hperm := sortDescBy_perm (fun b => ratOr b.popularity_score 0) l
  have hlen2 : (sortDescBy (fun b => ratOr b.popularity_score 0) l).length ≤ n := by
    rw [hperm.length_eq]
    exact hlen
  rw [List.take_of_length_le hlen2]
  exact List.mem_map.mpr ⟨b, hperm.mem_iff.mpr hb, rfl⟩

theorem trending_wrap_nonIncreasing (l : List Book) (n : Nat) :
    NonIncreasingBy (fun r => ratOr r.book.popularity_score 0)
      (trending_wrap l n) := by
  unfold trending_wrap
  rw [NonIncreasingBy, List.pairwise_map]
  have h := List.Pairwise.sublist (List.take_sublist n _)
    (sortDescBy_nonIncreasing (fun b => ratOr b.popularity_score 0) l)
  exact List.Pairwise.imp (fun hab => hab) h

/-- C9: for every Book the computed popularity score equals
min(edition_count/100, 1.0)*0.4 + (rating or 0)/5.0*0.6 exactly, and the
provider step that populates the popularity_score field stores exactly this
value in the field. -/
theorem C9_popularity_formula (b : Book) :
    calculate_popularity_score b =
      min ((b.edition_count : ℚ) / 100) 1 * (4/10) + (b.rating.getD 0) / 5 * (6/10)
    ∧ (set_popularity b).popularity_score = some (calculate_popularity_score b) := by
  constructor
  · unfold calculate_popularity_score ratOr
    cases hr : b.rating with
    | none => simp
    | some q =>
      by_cases hq : q = 0
      · simp [hq]
      · simp [hq]
  · rfl

/-- C8: with an empty candidate list (in particular for a target book with
no usable text content) `get_recommendations` returns the empty list — for
every target, profile, context, limit, and every possible vectorizer
outcome — rather than propagating a failure. -/
theorem C8_empty_input_returns_empty (sim : Book → List Book → Option (List ℚ))
    (target : Book) (profile : Option UserProfile) (ctx : Option Context)
    (top_n : Nat) :
    get_recommendations sim target [] profile ctx top_n = [] := by
  cases ctx with
  | none => simp [get_recommendations, hybrid_recommend_nil, ensure_diversity]
  | some c =>
    simp [get_recommendations, hybrid_recommend_nil, apply_context_filters_nil,
      ensure_diversity]

/-- C10: for the three recognized time windows the caller-supplied candidate
list is left unchanged by get_trending_recommendations, while for any other
window the caller's list itself is sorted in place by truthy popularity
score descending — demonstrated on a concrete out-of-order list. -/
theorem C10_trending_in_place_sort (cy : Int) (candidates : List Book)
    (w : String) (top_n : Nat) :
    ((w = "recent" ∨ w = "this_year" ∨ w = "classic") →
      (get_trending_full cy candidates w top_n).1 = candidates)
    ∧ (w ≠ "recent" → w ≠ "this_year" → w ≠ "classic" →
      (get_trending_full cy candidates w top_n).1 =
        sortDescBy (fun b => ratOr b.popularity_score 0) candidates)
    ∧ (get_trending_full 2025 [popIntLow, popIntHigh] "all_time" 10).1 =
        [popIntHigh, popIntLow] := by
  refine ⟨?_, ?_, by decide⟩
  · intro h
    rcases h with h | h | h <;> subst h
    · rw [get_trending_full, if_pos rfl]
    · rw [get_trending_full, if_neg (by decide), if_pos rfl]
    · rw [get_trending_full, if_neg (by decide), if_neg (by decide), if_pos rfl]
  · intro h1 h2 h3
    rw [get_trending_full, if_neg h1, if_neg h2, if_neg h3]

/-- Witness for C10 at concrete windows. -/
theorem C10_trending_in_place_sort_witness :
    (get_trending_full 2025 [pop02Book] "recent" 10).1 = [pop02Book] ∧
    (get_trending_full 2025 [pop02Book] "best" 10).1 =
      sortDescBy (fun b => ratOr b.popularity_score 0) [pop02Book] :=
  ⟨(C10_trending_in_place_sort 2025 [pop02Book] "recent" 10).1 (Or.inl rfl),
   (C10_trending_in_place_sort 2025 [pop02Book] "best" 10).2.1
     (by decide) (by decide) (by decide)⟩

/-- C5 fails: staleBook has sentiment_score 0.0 already set (a neutral
memoization) and its description afterwards mutated to "excellent"; the
enrichment step treats the stored 0.0 as Python-falsy, recomputes, and
changes the stored score to 1. -/
theorem C5_counterexample_zero_memo_recomputed :
    staleBook.sentiment_score = some 0 ∧
    (enrich_with_sentiment staleBook).sentiment_score = some 1 := by
  refine ⟨rfl, ?_⟩
  have ht : tokenize "excellent" = ["excellent"] := by decide
  have hcond : (optStrTruthy staleBook.description &&
      !optRatTruthy staleBook.sentiment_score) = true := by decide
  rw [enrich_with_sentiment, if_pos hcond]
  show some (analyze "excellent") = some 1
  have ha : analyze "excellent" = 1 := by
    rw [analyze, if_neg (by decide)]
    rw [ht]
    norm_num +decide
  rw [ha]

/-- C5 amended: a Book whose sentiment_score is set to a NON-ZERO value
keeps it through the enrichment step even if the description was mutated,
and the enrichment step is idempotent on every Book; a memoized 0.0 is
Python-falsy and is recomputed. -/
theorem C5_amended_nonzero_memo_stable :
    (∀ (b : Book) (s : ℚ) (d : Option String), b.sentiment_score = some s →
      s ≠ 0 →
      (enrich_with_sentiment { b with description := d }).sentiment_score = some s)
    ∧ (∀ b : Book, enrich_with_sentiment (enrich_with_sentiment b) =
        enrich_with_sentiment b) := by
  constructor
  · intro b s d hs hnz
    have ht : optRatTruthy ({ b with description := d } : Book).sentiment_score
        = true := by
      show optRatTruthy b.sentiment_score = true
      rw [hs]
      simp [optRatTruthy, hnz]
    unfold enrich_with_sentiment
    rw [if_neg (by simp [ht])]
    exact hs
  · intro b
    by_cases hc : (optStrTruthy b.description && !optRatTruthy b.sentiment_score)
        = true
    · have h1 : enrich_with_sentiment b =
          { b with sentiment_score := some (analyze (b.description.getD "")) } := by
        unfold enrich_with_sentiment
        rw [if_pos hc]
      rw [h1]
      unfold enrich_with_sentiment
      split
      · rfl
      · rfl
    · have h1 : enrich_with_sentiment b = b := by
        unfold enrich_with_sentiment
        rw [if_neg hc]
      rw [h1, h1]

theorem hybrid_recommend_score_le_one (sim : Book → List Book → Option (List ℚ))
    (target : Book) (candidates : List Book) (profile : Option UserProfile)
    (n : Nat) : ∀ r ∈ hybrid_recommend sim target candidates profile n,
      r.score ≤ 1 := by
  intro r hr
  exact hybridAll_score_le_one _ _ r ((List.take_sublist n _).subset hr)

/-- C4 fails: a candidate whose popularity_score is 0.0 is Python-falsy and
is dropped entirely by the popularity fallback, so the path does not return
all candidates ranked by popularity. -/
theorem C4_counterexample_zero_popularity_dropped :
    cf_recommend [zeroPopBook] none 10 = [] ∧ zeroPopBook ∈ [zeroPopBook] := by
  exact ⟨by decide, by decide⟩

/-- C4 amended: when the profile is absent or has no reading history, the
Preference Matcher path returns the candidates with a SET NON-ZERO
popularity_score (Python-truthy), ranked by popularity_score descending
(stable) and truncated to top_n, each labelled "Popularity-Based" with a
reason citing the edition count; the 0.9/0.5/0.2 scenario returns them in
that order. -/
theorem C4_amended_popularity_fallback (candidates : List Book)
    (profile : Option UserProfile) (top_n : Nat)
    (h : profile = none ∨ ∃ p, profile = some p ∧ p.reading_history = []) :
    (∀ r ∈ cf_recommend candidates profile top_n,
        r.algorithm = "Popularity-Based" ∧ r.book ∈ candidates ∧
        r.book.popularity_score = some r.score ∧ r.score ≠ 0 ∧
        r.reasons = ["Popular book with " ++ toString r.book.edition_count ++ " editions"])
    ∧ ScoresNonIncreasing (cf_recommend candidates profile top_n)
    ∧ (cf_recommend [pop09Book, pop05Book, pop02Book] profile 10).map
        (fun r => (r.score, r.algorithm)) =
      [((9:ℚ)/10, "Popularity-Based"), ((5:ℚ)/10, "Popularity-Based"),
       ((2:ℚ)/10, "Popularity-Based")] := by
  have hred : ∀ (cs : List Book) (n : Nat),
      cf_recommend cs profile n = popularity_based_recommendations cs n := by
    intro cs n
    rcases h with rfl | ⟨p, rfl, hp⟩
    · rfl
    · simp only [cf_recommend]
      rw [if_pos hp]
  refine ⟨?_, ?_, ?_⟩
  · intro r hr
    rw [hred] at hr
    unfold popularity_based_recommendations at hr
    have hr2 := mem_of_mem_take_sortRecs hr
    rcases List.mem_filterMap.mp hr2 with ⟨b, hb, hfb⟩
    by_cases ht : optRatTruthy b.popularity_score = true
    · rw [if_pos ht] at hfb
      cases hfb
      cases hq : b.popularity_score with
      | none =>
        rw [hq] at ht
        simp [optRatTruthy] at ht
      | some q =>
        rw [hq] at ht
        simp only [optRatTruthy, bne_iff_ne] at ht
        refine ⟨rfl, hb, ?_, ?_, rfl⟩
        · simp [ratOr, ht]
        · simp [ratOr, ht]
    · rw [if_neg ht] at hfb
      cases hfb
  · rw [hred]
    unfold popularity_based_recommendations
    exact scoresNonIncreasing_take_sortRecs _ _
  · rw [hred]
    norm_num +decide [popularity_based_recommendations, sortRecs, sortDescBy,
      insertDescBy, optRatTruthy, ratOr, pop09Book, pop05Book, pop02Book,
      bne_iff_ne, List.filterMap_cons]

/-- Witness for C4 amended at an absent profile. -/
theorem C4_amended_popularity_fallback_witness :
    ScoresNonIncreasing (cf_recommend [pop09Book, pop05Book, pop02Book] none 10) :=
  (C4_amended_popularity_fallback [pop09Book, pop05Book, pop02Book] none 10
    (Or.inl rfl)).2.1

/-- C2 fails: a candidate matching all four happy genres with positive
sentiment receives score 1.0 * 1.2 = 1.2 from the mood path, which has no
clamp, so a returned Recommendation carries score 6/5 > 1. -/
theorem C2_counterexample_mood_boost_exceeds_one :
    ∃ r ∈ get_mood_based_recommendations [moodBoostBook] "happy" 10,
      r.score > 1 := by
  have hs : mood_score "happy" moodBoostBook = 6/5 := by
    norm_num +decide [mood_score, mood_base, moodBoostBook, mood_genres,
      optListTruthy, optList, optRatTruthy, lowerStr, isSubstring, substrAux,
      charsPrefix]
  have hlist : (get_mood_based_recommendations [moodBoostBook] "happy" 10).map
      (fun r => r.score) = [6/5] := by
    norm_num [get_mood_based_recommendations, hs, List.filterMap_cons,
      sortDescBy, insertDescBy]
  rcases hmem : get_mood_based_recommendations [moodBoostBook] "happy" 10 with
    _ | ⟨r, rest⟩
  · rw [hmem] at hlist
    exact absurd hlist (by simp)
  · rw [hmem] at hlist
    simp only [List.map_cons, List.cons.injEq] at hlist
    refine ⟨r, ?_, ?_⟩
    · exact List.mem_cons_self r rest
    · rw [hlist.1]
      norm_num

/-- C2 amended: the score clamp to 1.0 holds at the TF-IDF user-boost stage
and at the hybrid combination stage, but the night-time 1.1x context boost
and the mood 1.2x sentiment boost are applied WITHOUT a clamp; consequently
mood-based scores are only bounded by 1.2, and the orchestrator's final
scores (hybrid, then optional context boost) are only bounded by 1.1. -/
theorem C2_amended_score_bounds :
    (∀ (s : ℚ) (b : Book) (p : UserProfile), apply_user_boost s b p ≤ 1)
    ∧ (∀ tf cf : List BookRecommendation, ∀ r ∈ hybridAll tf cf, r.score ≤ 1)
    ∧ (∀ (recs : List BookRecommendation) (ctx : Context),
        (∀ r ∈ recs, r.score ≤ 1) →
        ∀ r ∈ apply_context_filters recs ctx, r.score ≤ 11/10)
    ∧ (∀ (cands : List Book) (mood : String) (n : Nat),
        ∀ r ∈ get_mood_based_recommendations cands mood n, r.score ≤ 12/10)
    ∧ (∀ (sim : Book → List Book → Option (List ℚ)) (t : Book)
        (cands : List Book) (prof : Option UserProfile) (ctx : Option Context)
        (n : Nat),
        ∀ r ∈ get_recommendations sim t cands prof ctx n, r.score ≤ 11/10) := by
  have h1 : ∀ (s : ℚ) (b : Book) (p : UserProfile), apply_user_boost s b p ≤ 1 :=
    fun s b p => min_le_right _ _
  have h2 := hybridAll_score_le_one
  have h3 : ∀ (recs : List BookRecommendation) (ctx : Context),
      (∀ r ∈ recs, r.score ≤ 1) →
      ∀ r ∈ apply_context_filters recs ctx, r.score ≤ 11/10 := by
    intro recs ctx hin r hr
    rcases mem_apply_context_filters hr with ⟨r0, hr0, hc | hc⟩
    · rw [hc]
      exact le_trans (hin r0 hr0) (by norm_num)
    · rw [hc]
      have := hin r0 hr0
      nlinarith
  have h4 : ∀ (cands : List Book) (mood : String) (n : Nat),
      ∀ r ∈ get_mood_based_recommendations cands mood n, r.score ≤ 12/10 := by
    intro cands mood n r hr
    unfold get_mood_based_recommendations at hr
    rcases List.mem_map.mp hr with ⟨p, hp, rfl⟩
    have hp2 : p ∈ cands.filterMap (fun b =>
        if mood_score mood b > 0 then some (b, mood_score mood b) else none) :=
      (sortDescBy_perm (fun q => q.2) _).mem_iff.mp ((List.take_sublist n _).subset hp)
    rcases List.mem_filterMap.mp hp2 with ⟨b, hb, hfb⟩
    by_cases hpos : mood_score mood b > 0
    · rw [if_pos hpos] at hfb
      cases hfb
      exact mood_score_le mood b
    · rw [if_neg hpos] at hfb
      cases hfb
  have h5 : ∀ (sim : Book → List Book → Option (List ℚ)) (t : Book)
      (cands : List Book) (prof : Option UserProfile) (ctx : Option Context)
      (n : Nat),
      ∀ r ∈ get_recommendations sim t cands prof ctx n, r.score ≤ 11/10 := by
    intro sim t cands prof ctx n r hr
    cases ctx with
    | none =>
      simp only [get_recommendations] at hr
      have hr2 := mem_ensure_diversity ((List.take_sublist n _).subset hr)
      exact le_trans (hybrid_recommend_score_le_one sim t _ prof _ r hr2) (by norm_num)
    | some c =>
      simp only [get_recommendations] at hr
      have hr2 := mem_ensure_diversity ((List.take_sublist n _).subset hr)
      exact h3 _ c (hybrid_recommend_score_le_one sim t _ prof _) r hr2
  exact ⟨h1, h2, h3, h4, h5⟩

/-- Witness for C2 amended: the context-filter bound applied at a concrete
night context. -/
theorem C2_amended_score_bounds_witness :
    ∀ r ∈ apply_context_filters [shortPageRec]
        { time_of_day := some "night", reading_goal := none },
      r.score ≤ 11/10 :=
  C2_amended_score_bounds.2.2.1 [shortPageRec]
    { time_of_day := some "night", reading_goal := none } (by decide)

/-- Witness for C5 amended: a non-zero memoized sentiment survives a
description mutation. -/
theorem C5_amended_nonzero_memo_stable_witness :
    (enrich_with_sentiment { moodBoostBook with description := some "bad plot" }
      ).sentiment_score = some (1/2) :=
  C5_amended_nonzero_memo_stable.1 moodBoostBook (1/2) (some "bad plot") rfl
    (by norm_num)

theorem trending_branch_props (cands : List Book) (P : Book → Bool) (n : Nat) :
    (∀ r ∈ trending_wrap (cands.filter P) n,
       r.algorithm = "Trending" ∧ r.book ∈ cands ∧ P r.book = true)
    ∧ NonIncreasingBy (fun r => ratOr r.book.popularity_score 0)
        (trending_wrap (cands.filter P) n)
    ∧ (cands.length ≤ n → ∀ b ∈ cands, P b = true →
        ∃ r ∈ trending_wrap (cands.filter P) n, r.book = b) := by
  refine ⟨?_, trending_wrap_nonIncreasing _ _, ?_⟩
  · intro r hr
    rcases mem_trending_wrap hr with ⟨b, hb, rfl⟩
    rcases List.mem_filter.mp hb with ⟨hbc, hbp⟩
    exact ⟨rfl, hbc, hbp⟩
  · intro hlen b hb hp
    have hb2 : b ∈ cands.filter P := List.mem_filter.mpr ⟨hb, hp⟩
    have hlen2 : (cands.filter P).length ≤ n :=
      le_trans (List.length_filter_le _ _) hlen
    exact ⟨trending_rec b, trending_wrap_complete hlen2 hb2, rfl⟩

/-- C6 fails: a year-0 (unknown-year) candidate satisfies year < 2000, yet
the classic filter drops it because Python `b.year and ...` is falsy at 0. -/
theorem C6_counterexample_year_zero_dropped :
    unknownYearBook.year < 2000 ∧
    get_trending_recommendations 2025 [unknownYearBook] "classic" 10 = [] := by
  exact ⟨by decide, by decide⟩

/-- C6 amended: get_trending_recommendations keeps exactly the candidates
passing the time-window filter, where "recent" requires year non-zero AND
year at least current_year - 2, "this_year" requires year equal to
current_year, "classic" requires year NON-ZERO and below 2000 (a 0 = unknown
year is excluded), and any other window keeps everything; results are sorted
by truthy popularity score descending with algorithm "Trending"; with window
"classic" a year-1950 candidate appears and a year-2023 one does not. -/
theorem C6_amended_trending_filter (cy : Int) (candidates : List Book)
    (w : String) (top_n : Nat) :
    (∀ r ∈ get_trending_recommendations cy candidates w top_n,
      r.algorithm = "Trending" ∧ r.book ∈ candidates ∧
      (w = "recent" → r.book.year ≠ 0 ∧ r.book.year ≥ cy - 2) ∧
      (w = "this_year" → r.book.year = cy) ∧
      (w = "classic" → r.book.year ≠ 0 ∧ r.book.year < 2000))
    ∧ NonIncreasingBy (fun r => ratOr r.book.popularity_score 0)
        (get_trending_recommendations cy candidates w top_n)
    ∧ (w = "classic" → candidates.length ≤ top_n →
        ∀ b ∈ candidates, b.year ≠ 0 → b.year < 2000 →
          ∃ r ∈ get_trending_recommendations cy candidates w top_n, r.book = b)
    ∧ ((get_trending_recommendations 2025 [oldBook, newBook] "classic" 10).map
        (fun r => (r.book.title, r.algorithm)) = [("old", "Trending")]) := by
  have hscen : (get_trending_recommendations 2025 [oldBook, newBook] "classic"
      10).map (fun r => (r.book.title, r.algorithm)) = [("old", "Trending")] := by
    norm_num +decide [get_trending_recommendations, get_trending_full,
      trending_wrap, trending_rec, sortDescBy, insertDescBy, ratOr, optRatTruthy,
      oldBook, newBook]
  by_cases h1 : w = "recent"
  · subst h1
    have heq : ∀ (cs : List Book) (n : Nat),
        get_trending_recommendations cy cs "recent" n =
          trending_wrap (cs.filter
            (fun b => b.year != 0 && decide (b.year ≥ cy - 2))) n := by
      intro cs n
      rw [get_trending_recommendations, get_trending_full, if_pos rfl]
    rcases trending_branch_props candidates
      (fun b => b.year != 0 && decide (b.year ≥ cy - 2)) top_n with ⟨hs, ho, _⟩
    rw [heq]
    refine ⟨?_, ho, ?_, hscen⟩
    · intro r hr
      rcases hs r hr with ⟨ha, hc, hp⟩
      simp only [Bool.and_eq_true, bne_iff_ne, decide_eq_true_eq] at hp
      exact ⟨ha, hc, fun _ => hp, fun hw => absurd hw (by decide),
        fun hw => absurd hw (by decide)⟩
    · intro hw
      exact absurd hw (by decide)
  · by_cases h2 : w = "this_year"
    · subst h2
      have heq : ∀ (cs : List Book) (n : Nat),
          get_trending_recommendations cy cs "this_year" n =
            trending_wrap (cs.filter (fun b => b.year == cy)) n := by
        intro cs n
        rw [get_trending_recommendations, get_trending_full,
          if_neg (by decide), if_pos rfl]
      rcases trending_branch_props candidates (fun b => b.year == cy) top_n
        with ⟨hs, ho, _⟩
      rw [heq]
      refine ⟨?_, ho, ?_, hscen⟩
      · intro r hr
        rcases hs r hr with ⟨ha, hc, hp⟩
        simp only [beq_iff_eq] at hp
        exact ⟨ha, hc, fun hw => absurd hw (by decide), fun _ => hp,
          fun hw => absurd hw (by decide)⟩
      · intro hw
        exact absurd hw (by decide)
    · by_cases h3 : w = "classic"
      · subst h3
        have heq : ∀ (cs : List Book) (n : Nat),
            get_trending_recommendations cy cs "classic" n =
              trending_wrap (cs.filter
                (fun b => b.year != 0 && decide (b.year < 2000))) n := by
          intro cs n
          rw [get_trending_recommendations, get_trending_full,
            if_neg (by decide), if_neg (by decide), if_pos rfl]
        rcases trending_branch_props candidates
          (fun b => b.year != 0 && decide (b.year < 2000)) top_n with ⟨hs, ho, hcomp⟩
        rw [heq]
        refine ⟨?_, ho, ?_, hscen⟩
        · intro r hr
          rcases hs r hr with ⟨ha, hc, hp⟩
          simp only [Bool.and_eq_true, bne_iff_ne, decide_eq_true_eq] at hp
          exact ⟨ha, hc, fun hw => absurd hw (by decide),
            fun hw => absurd hw (by decide), fun _ => hp⟩
        · intro _ hlen b hb h0 h2000
          have hp : (b.year != 0 && decide (b.year < 2000)) = true := by
            simp [bne_iff_ne, h0, h2000]
          exact hcomp hlen b hb hp
      · have heq : get_trending_recommendations cy candidates w top_n =
            trending_wrap candidates top_n := by
          rw [get_trending_recommendations, get_trending_full,
            if_neg h1, if_neg h2, if_neg h3]
        rw [heq]
        refine ⟨?_, trending_wrap_nonIncreasing _ _, ?_, hscen⟩
        · intro r hr
          rcases mem_trending_wrap hr with ⟨b, hb, rfl⟩
          exact ⟨rfl, hb, fun hw => absurd hw h1, fun hw => absurd hw h2,
            fun hw => absurd hw h3⟩
        · intro hw
          exact absurd hw h3

/-- Witness for C6 amended: the classic completeness conjunct at a concrete
pre-2000 candidate. -/
theorem C6_amended_trending_filter_witness :
    ∃ r ∈ get_trending_recommendations 2025 [oldBook] "classic" 10,
      r.book = oldBook :=
  (C6_amended_trending_filter 2025 [oldBook] "classic" 10).2.2.1 rfl (by decide)
    oldBook (List.mem_cons_self _ _) (by decide) (by decide)

theorem qualifies_spec {book : Book} {e : ReadingHistory}
    (h : qualifies book e = true) :
    4 ≤ e.rating.getD 0 ∧ 0 < calculate_item_similarity book e := by
  unfold qualifies at h
  cases he : e.rating with
  | none =>
    simp only [he] at h
    exact absurd h Bool.false_ne_true
  | some r =>
    simp only [he] at h
    simp only [Bool.and_eq_true, decide_eq_true_eq] at h
    simp only [he, Option.getD_some]
    exact h

/-- C3 fails: with a duplicated subject list ["a","a"] and entry tags ["a"],
the code divides the overlap (1) by max of the LIST lengths (2), giving
similarity 0.15 and score 0.15, while the claim formula divides by max of
the SET sizes (1), giving similarity 0.3 and score 0.3. -/
theorem C3_counterexample_set_vs_list_sizes :
    calculate_item_similarity dupSubjectsBook likedEntry = 3/20 ∧
    claim_item_similarity dupSubjectsBook likedEntry = 3/10 ∧
    calculate_cf_score dupSubjectsBook dupProfile ≠
      claim_cf_score dupSubjectsBook dupProfile := by
  refine ⟨?_, ?_, ?_⟩
  · norm_num +decide [calculate_item_similarity, dupSubjectsBook, likedEntry,
      optListTruthy, optList]
  · norm_num +decide [claim_item_similarity, dupSubjectsBook, likedEntry,
      optListTruthy, optList]
  · norm_num +decide [calculate_cf_score, claim_cf_score, cf_step,
      calculate_item_similarity, claim_item_similarity, dupSubjectsBook,
      dupProfile, likedEntry, optListTruthy, optList]

/-- C3 amended: the Preference Matcher score equals (sum of rating *
similarity over history entries rated at least 4.0 with positive similarity,
divided by the count of such entries, divided by 5.0) when that count is
positive and 0 otherwise, where the per-entry similarity overlap fraction
divides by the max of the two LIST lengths (candidate subjects[:5] and entry
tags), not set sizes; under the data-model bound rating at most 5 the score
lies in [0,1]. -/
theorem C3_amended_preference_matcher (book : Book) (profile : UserProfile)
    (hr : ∀ e ∈ profile.reading_history, e.rating.getD 0 ≤ 5) :
    (calculate_cf_score book profile =
      if 0 < (profile.reading_history.filter (qualifies book)).length then
        (((profile.reading_history.filter (qualifies book)).map
            (fun e => e.rating.getD 0 * calculate_item_similarity book e)).sum /
          ((profile.reading_history.filter (qualifies book)).length : ℚ)) / 5
      else 0)
    ∧ 0 ≤ calculate_cf_score book profile
    ∧ calculate_cf_score book profile ≤ 1 := by
  have hfold := cf_fold book profile.reading_history 0 0
  have heq : calculate_cf_score book profile =
      if 0 < (profile.reading_history.filter (qualifies book)).length then
        (((profile.reading_history.filter (qualifies book)).map
            (fun e => e.rating.getD 0 * calculate_item_similarity book e)).sum /
          ((profile.reading_history.filter (qualifies book)).length : ℚ)) / 5
      else 0 := by
    simp only [calculate_cf_score, hfold, zero_add]
  refine ⟨heq, ?_, ?_⟩
  · rw [heq]
    by_cases hl : 0 < (profile.reading_history.filter (qualifies book)).length
    · rw [if_pos hl]
      have hsum : 0 ≤ ((profile.reading_history.filter (qualifies book)).map
          (fun e => e.rating.getD 0 * calculate_item_similarity book e)).sum := by
        apply List.sum_nonneg
        intro x hx
        rcases List.mem_map.mp hx with ⟨e, he, rfl⟩
        rcases qualifies_spec (List.mem_filter.mp he).2 with ⟨h4, hsim⟩
        exact mul_nonneg (le_trans (by norm_num) h4) (le_of_lt hsim)
      positivity
    · rw [if_neg hl]
  · rw [heq]
    by_cases hl : 0 < (profile.reading_history.filter (qualifies book)).length
    · rw [if_pos hl]
      have hmem : ∀ x ∈ (profile.reading_history.filter (qualifies book)).map
          (fun e => e.rating.getD 0 * calculate_item_similarity book e),
          x ≤ 5 := by
        intro x hx
        rcases List.mem_map.mp hx with ⟨e, he, rfl⟩
        rcases qualifies_spec (List.mem_filter.mp he).2 with ⟨h4, hsim⟩
        have h5 : e.rating.getD 0 ≤ 5 := hr e (List.mem_of_mem_filter he)
        have hsim1 : calculate_item_similarity book e ≤ 1 :=
          calculate_item_similarity_le_one book e
        nlinarith
      have hsum := List.sum_le_card_nsmul
        ((profile.reading_history.filter (qualifies book)).map
          (fun e => e.rating.getD 0 * calculate_item_similarity book e)) 5 hmem
      rw [List.length_map, nsmul_eq_mul] at hsum
      have hlen : (0:ℚ) <
          ((profile.reading_history.filter (qualifies book)).length : ℚ) := by
        exact_mod_cast hl
      rw [div_le_one (by norm_num : (0:ℚ) < 5), div_le_iff₀ hlen]
      linarith
    · rw [if_neg hl]
      norm_num

/-- Witness for C3 amended at a concrete profile whose single entry is rated
5.0. -/
theorem C3_amended_preference_matcher_witness :
    0 ≤ calculate_cf_score dupSubjectsBook dupProfile ∧
    calculate_cf_score dupSubjectsBook dupProfile ≤ 1 :=
  ⟨(C3_amended_preference_matcher dupSubjectsBook dupProfile (by decide)).2.1,
   (C3_amended_preference_matcher dupSubjectsBook dupProfile (by decide)).2.2⟩

theorem ratOr_truthy {o : Option ℚ} (h : optRatTruthy o = true) (d : ℚ) :
    ratOr o d = ratOr o 0 := by
  cases o with
  | none => simp [optRatTruthy] at h
  | some q =>
    simp only [optRatTruthy, bne_iff_ne] at h
    simp [ratOr, h]

theorem trending_wrap_scores_truthy {l : List Book} (n : Nat)
    (h : ∀ b ∈ l, optRatTruthy b.popularity_score = true) :
    ScoresNonIncreasing (trending_wrap l n) := by
  have hp := trending_wrap_nonIncreasing l n
  refine List.Pairwise.imp_of_mem ?_ hp
  intro a b ha hb hab
  rcases mem_trending_wrap ha with ⟨ba, hba, rfl⟩
  rcases mem_trending_wrap hb with ⟨bb, hbb, rfl⟩
  show ratOr bb.popularity_score (1/2) ≤ ratOr ba.popularity_score (1/2)
  rw [ratOr_truthy (h ba hba), ratOr_truthy (h bb hbb)]
  exact hab

/-- C7 fails: on an input sorted 9, 8, 7, 6 with top_n 3 the Diversity
Enforcer's fill pass appends the skipped 8-score item after the admitted
7-score one, and the trending path emits the 0.5 default score for a falsy
popularity after a 0.3 truthy one, so returned lists are not always
non-increasing in score. -/
theorem C7_counterexample_order_broken :
    ScoresNonIncreasing [recA, recB, recC, recD] ∧
    (ensure_diversity [recA, recB, recC, recD] 3).map (fun r => r.score) =
      [9, 7, 8] ∧
    ¬ ScoresNonIncreasing (ensure_diversity [recA, recB, recC, recD] 3) ∧
    ¬ ScoresNonIncreasing
      (get_trending_recommendations 2025 [popTruthyBook, popFalsyBook]
        "classic" 10) := by
  refine ⟨by decide, by decide, by decide, ?_⟩
  norm_num +decide [ScoresNonIncreasing, NonIncreasingBy,
    get_trending_recommendations, get_trending_full, trending_wrap, trending_rec,
    sortDescBy, insertDescBy, ratOr, optRatTruthy, popTruthyBook, popFalsyBook,
    List.pairwise_cons]

/-- C7 amended: every sorting stage is stable (elements with equal score keep
input order) and the lists returned by the mood, trending (when every
candidate has a set non-zero popularity score), preference/popularity,
hybrid, TF-IDF and context stages are non-increasing in score, and the
Diversity Enforcer's first pass preserves a non-increasing order (it is a
sublist of its input); but the fill pass may append a higher-scored skipped
item after lower-scored admitted ones, and trending's 0.5 default score for
falsy popularity can also break monotonicity, so the final diversified list
and the trending list are NOT always non-increasing. -/
theorem C7_amended_ordering :
    (∀ (l : List BookRecommendation) (q : ℚ),
      (sortRecs l).filter (fun r => r.score == q) =
        l.filter (fun r => r.score == q))
    ∧ (∀ (sim : Book → List Book → Option (List ℚ)) (t : Book)
        (cs : List Book) (p : Option UserProfile) (n : Nat),
        ScoresNonIncreasing (hybrid_recommend sim t cs p n) ∧
        ScoresNonIncreasing (tfidf_recommend sim t cs p n))
    ∧ (∀ (cs : List Book) (p : Option UserProfile) (n : Nat),
        ScoresNonIncreasing (cf_recommend cs p n))
    ∧ (∀ (cs : List Book) (mood : String) (n : Nat),
        ScoresNonIncreasing (get_mood_based_recommendations cs mood n))
    ∧ (∀ (recs : List BookRecommendation) (ctx : Context),
        ScoresNonIncreasing (apply_context_filters recs ctx))
    ∧ (∀ (recs : List BookRecommendation) (n : Nat), ScoresNonIncreasing recs →
        ScoresNonIncreasing (diversity_first_pass n recs [] [] []))
    ∧ (∀ (cy : Int) (cs : List Book) (w : String) (n : Nat),
        (∀ b ∈ cs, optRatTruthy b.popularity_score = true) →
        ScoresNonIncreasing (get_trending_recommendations cy cs w n)) := by
  refine ⟨?_, ?_, ?_, ?_, ?_, ?_, ?_⟩
  · intro l q
    exact sortDescBy_filter (fun r => r.score) l q
  · intro sim t cs p n
    constructor
    · exact scoresNonIncreasing_take_sortRecs _ _
    · unfold tfidf_recommend
      cases sim t cs with
      | none => exact List.Pairwise.nil
      | some sims => exact scoresNonIncreasing_take_sortRecs _ _
  · intro cs p n
    cases p with
    | none =>
      simp only [cf_recommend, popularity_based_recommendations]
      exact scoresNonIncreasing_take_sortRecs _ _
    | some p0 =>
      simp only [cf_recommend]
      by_cases hp : p0.reading_history = []
      · rw [if_pos hp]
        unfold popularity_based_recommendations
        exact scoresNonIncreasing_take_sortRecs _ _
      · rw [if_neg hp]
        exact scoresNonIncreasing_take_sortRecs _ _
  · intro cs mood n
    unfold get_mood_based_recommendations
    rw [ScoresNonIncreasing, NonIncreasingBy, List.pairwise_map]
    have h := List.Pairwise.sublist (List.take_sublist n _)
      (sortDescBy_nonIncreasing (fun p : Book × ℚ => p.2)
        (cs.filterMap (fun b =>
          if mood_score mood b > 0 then some (b, mood_score mood b) else none)))
    exact List.Pairwise.imp (fun hab => hab) h
  · intro recs ctx
    unfold apply_context_filters
    exact sortDescBy_nonIncreasing _ _
  · intro recs n hrec
    exact List.Pairwise.sublist (diversity_first_pass_sublist n recs) hrec
  · intro cy cs w n h
    unfold get_trending_recommendations get_trending_full
    by_cases h1 : w = "recent"
    · rw [if_pos h1]
      refine trending_wrap_scores_truthy n ?_
      intro b hb
      exact h b (List.mem_of_mem_filter hb)
    · rw [if_neg h1]
      by_cases h2 : w = "this_year"
      · rw [if_pos h2]
        refine trending_wrap_scores_truthy n ?_
        intro b hb
        exact h b (List.mem_of_mem_filter hb)
      · rw [if_neg h2]
        by_cases h3 : w = "classic"
        · rw [if_pos h3]
          refine trending_wrap_scores_truthy n ?_
          intro b hb
          exact h b (List.mem_of_mem_filter hb)
        · rw [if_neg h3]
          exact trending_wrap_scores_truthy n h

/-- Witness for C7 amended: the first-pass order preservation and the
truthy-popularity trending order at concrete inputs. -/
theorem C7_amended_ordering_witness :
    ScoresNonIncreasing (diversity_first_pass 3 [recA, recB, recC, recD] [] [] []) ∧
    ScoresNonIncreasing
      (get_trending_recommendations 2025 [popIntHigh] "classic" 10) :=
  ⟨C7_amended_ordering.2.2.2.2.2.1 [recA, recB, recC, recD] 3 (by decide),
   C7_amended_ordering.2.2.2.2.2.2 2025 [popIntHigh] "classic" 10 (by decide)⟩

/-- C1: the Hybrid Combiner merges the two strategy result lists by book
identity (work_id, falling back to title when work_id is absent or empty);
a book emitted by both strategies (TF-IDF weighted 0.6,
Collaborative/Popularity weighted 0.4) gets score
min(((0.6*s1 + 0.4*s2)/2) * 1.2, 1), and a book emitted by exactly one
strategy gets its weighted score divided by 2 with no 1.2 boost, clamped at
1. -/
theorem C1_hybrid_score_fusion (tf cf : List BookRecommendation) (k : String) :
    (∀ r1 r2 : BookRecommendation,
      tf.filter (fun r => bookKey r.book == k) = [r1] →
      cf.filter (fun r => bookKey r.book == k) = [r2] →
      ∃ r ∈ hybridAll tf cf, r.book = r1.book ∧ r.algorithm = "Hybrid ML" ∧
        r.score = min ((r1.score * (6/10) + r2.score * (4/10)) / 2 * (12/10)) 1)
    ∧ (∀ r1 : BookRecommendation,
      tf.filter (fun r => bookKey r.book == k) = [r1] →
      cf.filter (fun r => bookKey r.book == k) = [] →
      ∃ r ∈ hybridAll tf cf, r.book = r1.book ∧ r.algorithm = "Hybrid ML" ∧
        r.score = min (r1.score * (6/10) / 2) 1)
    ∧ (∀ r2 : BookRecommendation,
      tf.filter (fun r => bookKey r.book == k) = [] →
      cf.filter (fun r => bookKey r.book == k) = [r2] →
      ∃ r ∈ hybridAll tf cf, r.book = r2.book ∧ r.algorithm = "Hybrid ML" ∧
        r.score = min (r2.score * (4/10) / 2) 1) := by
  refine ⟨?_, ?_, ?_⟩
  · intro r1 r2 h1 h2
    have hm1 := findEntry_fold_new (6/10) tf [] k r1 h1 rfl
    have hm2 := findEntry_fold_upd (4/10) cf
      (tf.foldl (addRec (6/10)) []) k r2 _ h2 hm1
    have hmem := findEntry_mem hm2
    refine ⟨_, mem_sortDescBy.mpr (List.mem_map.mpr ⟨_, hmem, rfl⟩), rfl, rfl, ?_⟩
    show min ((((0:ℚ) + r1.score * (6/10)) + r2.score * (4/10)) / 2 * (12/10)) 1
      = _
    rw [zero_add]
  · intro r1 h1 h2
    have hm1 := findEntry_fold_new (6/10) tf [] k r1 h1 rfl
    have hnk : ∀ x ∈ cf, bookKey x.book ≠ k := by
      intro x hx hxk
      have := List.filter_eq_nil_iff.mp h2 x hx
      simp [hxk] at this
    have hm2 : findEntry k (hybridMerged tf cf) =
        some { book := r1.book, scores := [r1.score * (6/10)],
               reasons := r1.reasons.dedup, algorithms := [r1.algorithm] } := by
      rw [hybridMerged, findEntry_fold_no_key (4/10) cf _ k hnk]
      exact hm1
    have hmem := findEntry_mem hm2
    refine ⟨_, mem_sortDescBy.mpr (List.mem_map.mpr ⟨_, hmem, rfl⟩), rfl, rfl, ?_⟩
    show min (((0:ℚ) + r1.score * (6/10)) / 2) 1 = _
    rw [zero_add]
  · intro r2 h1 h2
    have hnk : ∀ x ∈ tf, bookKey x.book ≠ k := by
      intro x hx hxk
      have := List.filter_eq_nil_iff.mp h1 x hx
      simp [hxk] at this
    have hm0 : findEntry k (tf.foldl (addRec (6/10)) []) = none := by
      rw [findEntry_fold_no_key (6/10) tf [] k hnk]
      rfl
    have hm2 := findEntry_fold_new (4/10) cf
      (tf.foldl (addRec (6/10)) []) k r2 h2 hm0
    have hmem := findEntry_mem hm2
    refine ⟨_, mem_sortDescBy.mpr (List.mem_map.mpr ⟨_, hmem, rfl⟩), rfl, rfl, ?_⟩
    show min (((0:ℚ) + r2.score * (4/10)) / 2) 1 = _
    rw [zero_add]

/-- Witness for C1: one book identity emitted by both strategies at concrete
scores 0.5 and 0.75 fuses to min(1.2*(0.6*0.5 + 0.4*0.75)/2, 1) = 9/25. -/
theorem C1_hybrid_score_fusion_witness :
    ∃ r ∈ hybridAll [tfWitnessRec] [cfWitnessRec],
      r.book = tfWitnessRec.book ∧ r.algorithm = "Hybrid ML" ∧
      r.score = min ((tfWitnessRec.score * (6/10) + cfWitnessRec.score * (4/10))
        / 2 * (12/10)) 1 :=
  (C1_hybrid_score_fusion [tfWitnessRec] [cfWitnessRec] "w1").1 tfWitnessRec
    cfWitnessRec (by rfl) (by rfl)
